import Mathlib

/-!
Shallow embedding of src/flet_notify.py (flet_android_notify).

Modelling conventions:
- Python callables (button callbacks) are opaque Nat tokens: the core never
  invokes them, it only stores and forwards them to the backend.
- The android-notify backend is modelled as an environment of outcome flags
  (available / createFails / sendFails) together with a trace of the calls
  issued on it.  A call that the code makes appears in the trace even when the
  backend raises on it.
- Python exceptions are modelled with Except.  Methods that mutate self return
  the post-call state alongside the result, because mutations performed before
  a raise persist in Python.
- Python truthiness of Optional[str] (None and "" are falsy) is made explicit
  by optTruthy.
-/

/-- Mirror of enum NotificationImportance. -/
inductive NotificationImportance where
  | urgent | high | medium | low | none
deriving DecidableEq, Repr

/-- Mirror of enum NotificationStyle. -/
inductive NotificationStyle where
  | simple | progress | inbox | big_text | large_icon | big_picture | both_imgs
deriving DecidableEq, Repr

/-- The .value string of each NotificationStyle member. -/
def NotificationStyle.value : NotificationStyle → String
  | .simple => "simple"
  | .progress => "progress"
  | .inbox => "inbox"
  | .big_text => "big_text"
  | .large_icon => "large_icon"
  | .big_picture => "big_picture"
  | .both_imgs => "both_imgs"

/-- Mirror of dataclass NotificationButton; the callback is an opaque token. -/
structure NotificationButton where
  text : String
  callback : Nat
deriving DecidableEq, Repr

/-- Mirror of dataclass NotificationConfig. -/
structure NotificationConfig where
  title : String
  message : String
  channel_id : String
  channel_name : String
  importance : NotificationImportance
  style : NotificationStyle
  notification_id : Option String
  app_icon : Option String
  buttons : List NotificationButton
  progress_current : Int
  progress_max : Int
  large_icon_path : Option String
  big_picture_path : Option String
  big_text_body : Option String
  inbox_lines : List String
deriving DecidableEq, Repr

/-- The dataclass field defaults of NotificationConfig (title and message are
the two required fields). -/
def NotificationConfig.mkDefault (title message : String) : NotificationConfig :=
  { title := title, message := message, channel_id := "default",
    channel_name := "Padrão", importance := .urgent, style := .simple,
    notification_id := none, app_icon := none, buttons := [],
    progress_current := 0, progress_max := 100, large_icon_path := none,
    big_picture_path := none, big_text_body := none, inbox_lines := [] }

/-- The exception classes of flet_notify.py, each carrying its message. -/
inductive NotifyErr where
  | fletNotify (msg : String)
  | platformNotSupported (msg : String)
  | androidNotifyNotAvailable (msg : String)
  | permissionDenied (msg : String)
deriving DecidableEq, Repr

/-- The flet PagePlatform values the module compares against. -/
inductive PagePlatform where
  | android | ios | macos | windows | linux
deriving DecidableEq, Repr

/-- Display name used when a platform is interpolated into an error message. -/
def PagePlatform.pyName : PagePlatform → String
  | .android => "PagePlatform.ANDROID"
  | .ios => "PagePlatform.IOS"
  | .macos => "PagePlatform.MACOS"
  | .windows => "PagePlatform.WINDOWS"
  | .linux => "PagePlatform.LINUX"

/-- The only part of a flet Page the module reads. -/
structure Page where
  platform : PagePlatform
deriving DecidableEq, Repr

/-- Python truthiness of an Optional[str]: None and the empty string are falsy. -/
def optTruthy : Option String → Bool
  | none => false
  | some s => s != ""

/-- The kwargs dict built by FletNotification.send before calling
Notification(**kwargs).  A field is none when the key is absent; for keys whose
value is itself an Optional[str] taken verbatim from the config, presence of
the key is the outer some. -/
structure NotifKwargs where
  title : String
  message : String
  channel_id : String
  channel_name : String
  style : String
  name : Option String
  app_icon : Option String
  progress_current_value : Option Int
  progress_max_value : Option Int
  large_icon_path : Option (Option String)
  big_picture_path : Option (Option String)
  body : Option (Option String)
  lines_txt : Option String
deriving DecidableEq, Repr

/-- Mirror of the kwargs construction in FletNotification.send
(flet_notify.py lines 159-191). -/
def sendKwargs (c : NotificationConfig) : NotifKwargs :=
  let base : NotifKwargs :=
    { title := c.title, message := c.message, channel_id := c.channel_id,
      channel_name := c.channel_name, style := c.style.value,
      name := none, app_icon := none, progress_current_value := none,
      progress_max_value := none, large_icon_path := none,
      big_picture_path := none, body := none, lines_txt := none }
  let base := if optTruthy c.notification_id then { base with name := c.notification_id } else base
  let base := if optTruthy c.app_icon then { base with app_icon := c.app_icon } else base
  match c.style with
  | .progress =>
      { base with progress_current_value := some c.progress_current,
                  progress_max_value := some c.progress_max }
  | .large_icon => { base with large_icon_path := some c.large_icon_path }
  | .big_picture => { base with big_picture_path := some c.big_picture_path }
  | .both_imgs =>
      { base with large_icon_path := some c.large_icon_path,
                  big_picture_path := some c.big_picture_path }
  | .big_text => { base with body := some c.big_text_body }
  | .inbox => { base with lines_txt := some (String.intercalate "\n" c.inbox_lines) }
  | .simple => base

/-- One call issued on the android-notify backend. -/
inductive BackendCall where
  | createNotification (kwargs : NotifKwargs)
  | addButton (text : String) (callback : Nat)
  | sendNotif (silent persistent close_on_click : Bool)
  | updateTitle (t : String)
  | updateMessage (m : String)
  | updateProgressBar (current_value : Int) (title message : Option String)
  | showInfiniteProgressBar
  | removeProgressBar (message : Option String) (show_on_update : Bool)
  | cancelNotif
  | refreshNotif
deriving DecidableEq, Repr

/-- Outcome flags of the backend environment: whether the android-notify import
succeeds, and whether Notification(**kwargs) respectively handle.send(...)
raise (carrying str(e) when they do). -/
structure BackendEnv where
  available : Bool
  createFails : Option String
  sendFails : Option String
deriving DecidableEq, Repr

/-- Mirror of class FletNotification state: page platform, config, the opaque
backend handle self._notification, and self._sent. -/
structure FletNotification where
  platform : PagePlatform
  config : NotificationConfig
  _notification : Option Unit
  _sent : Bool
deriving DecidableEq, Repr

/-- Mirror of FletNotification.__init__ (page is non-null by typing): raises
PlatformNotSupportedException unless the platform is Android. -/
def FletNotification.make (page : Page) (config : NotificationConfig) :
    Except NotifyErr FletNotification :=
  if page.platform = PagePlatform.android then
    .ok { platform := page.platform, config := config,
          _notification := none, _sent := false }
  else
    .error (.platformNotSupported
      ("FletNotify suporta apenas Android (atual: " ++ page.platform.pyName ++ ")"))

/-- Result of a FletNotification method: the Python return or raise, the
post-call object state, and the backend calls issued. -/
abbrev OpResult := Except NotifyErr Unit × FletNotification × List BackendCall

/-- Mirror of FletNotification.send.  AndroidNotifyNotAvailableException is
re-raised unwrapped; any other backend exception is wrapped in
FletNotifyException.  The handle is assigned as soon as Notification(**kwargs)
returns, before the backend-side send that sets _sent. -/
def FletNotification.send (env : BackendEnv) (s : FletNotification)
    (silent persistent close_on_click : Bool) : OpResult :=
  if env.available = false then
    (.error (.androidNotifyNotAvailable
      ("android-notify não está instalado ou configurado. "
        ++ "Verifique se está em [tool.flet.android] dependencies")), s, [])
  else
    let kwargs := sendKwargs s.config
    match env.createFails with
    | some m =>
        (.error (.fletNotify ("Falha ao enviar notificação: " ++ m)), s,
          [BackendCall.createNotification kwargs])
    | none =>
        let s1 : FletNotification := { s with _notification := some () }
        let tr := BackendCall.createNotification kwargs ::
          (s.config.buttons.map fun b => BackendCall.addButton b.text b.callback) ++
          [BackendCall.sendNotif silent persistent close_on_click]
        match env.sendFails with
        | some m => (.error (.fletNotify ("Falha ao enviar notificação: " ++ m)), s1, tr)
        | none => (.ok (), { s1 with _sent := true }, tr)

/-- The exception every post-send operation raises when the instance was not
sent yet (Python guard: not self._sent or not self._notification). -/
def notSentErr : NotifyErr := .fletNotify "Notificação ainda não foi enviada"

/-- The guard shared by all post-send operations. -/
def FletNotification.unsentGuard (s : FletNotification) : Bool :=
  !s._sent || s._notification.isNone

/-- Mirror of FletNotification.update_title. -/
def FletNotification.update_title (s : FletNotification) (new_title : String) : OpResult :=
  if s.unsentGuard then (.error notSentErr, s, [])
  else
    (.ok (), { s with config := { s.config with title := new_title } },
      [BackendCall.updateTitle new_title])

/-- Mirror of FletNotification.update_message. -/
def FletNotification.update_message (s : FletNotification) (new_message : String) : OpResult :=
  if s.unsentGuard then (.error notSentErr, s, [])
  else
    (.ok (), { s with config := { s.config with message := new_message } },
      [BackendCall.updateMessage new_message])

/-- The exception update_progress raises when the style is not PROGRESS. -/
def wrongStyleErr : NotifyErr :=
  .fletNotify "update_progress requer NotificationStyle.PROGRESS"

/-- Mirror of FletNotification.update_progress: stores current unconditionally
(no clamping), applies title/message only when truthy, and issues exactly one
updateProgressBar backend call. -/
def FletNotification.update_progress (s : FletNotification) (current : Int)
    (title message : Option String) : OpResult :=
  if s.unsentGuard then (.error notSentErr, s, [])
  else if s.config.style != NotificationStyle.progress then
    (.error wrongStyleErr, s, [])
  else
    let newTitle := if optTruthy title then title.getD s.config.title else s.config.title
    let newMessage := if optTruthy message then message.getD s.config.message else s.config.message
    let newConfig := { s.config with progress_current := current,
                                     title := newTitle, message := newMessage }
    (.ok (),
      { s with config := newConfig },
      [BackendCall.updateProgressBar current
        (if optTruthy title then title else none)
        (if optTruthy message then message else none)])

/-- Mirror of FletNotification.show_infinite_progress. -/
def FletNotification.show_infinite_progress (s : FletNotification) : OpResult :=
  if s.unsentGuard then (.error notSentErr, s, [])
  else (.ok (), s, [BackendCall.showInfiniteProgressBar])

/-- Mirror of FletNotification.remove_progress. -/
def FletNotification.remove_progress (s : FletNotification)
    (message : Option String) (show_briefly : Bool) : OpResult :=
  if s.unsentGuard then (.error notSentErr, s, [])
  else (.ok (), s, [BackendCall.removeProgressBar message show_briefly])

/-- Mirror of FletNotification.cancel: forwards cancel to the backend but does
not change _sent or _notification. -/
def FletNotification.cancel (s : FletNotification) : OpResult :=
  if s.unsentGuard then (.error notSentErr, s, [])
  else (.ok (), s, [BackendCall.cancelNotif])

/-- Mirror of FletNotification.refresh. -/
def FletNotification.refresh (s : FletNotification) : OpResult :=
  if s.unsentGuard then (.error notSentErr, s, [])
  else (.ok (), s, [BackendCall.refreshNotif])

/-- Mirror of class NotificationBuilder. -/
structure NotificationBuilder where
  page : Page
  config : NotificationConfig
deriving DecidableEq, Repr

/-- Mirror of NotificationBuilder.set_icon. -/
def NotificationBuilder.set_icon (b : NotificationBuilder) (path : String) :
    NotificationBuilder :=
  { b with config := { b.config with app_icon := some path } }

/-- The exception raised on a 4th add_button. -/
def tooManyButtonsErr : NotifyErr := .fletNotify "Máximo de 3 botões por notificação"

/-- Mirror of NotificationBuilder.add_button: raises before appending when 3
buttons are already held, so a failing call changes nothing. -/
def NotificationBuilder.add_button (b : NotificationBuilder)
    (text : String) (callback : Nat) : Except NotifyErr NotificationBuilder :=
  if b.config.buttons.length ≥ 3 then .error tooManyButtonsErr
  else .ok { b with config :=
    { b.config with buttons := b.config.buttons ++ [⟨text, callback⟩] } }

/-- Mirror of NotificationBuilder.with_progress (defaults current=0, max=100
are passed explicitly by callers here). -/
def NotificationBuilder.with_progress (b : NotificationBuilder)
    (current max_value : Int) : NotificationBuilder :=
  { b with config := { b.config with style := .progress,
                                     progress_current := current,
                                     progress_max := max_value } }

/-- Mirror of NotificationBuilder.set_large_icon: upgrades to BOTH_IMAGES when
the big-picture path is already truthy. -/
def NotificationBuilder.set_large_icon (b : NotificationBuilder) (path : String) :
    NotificationBuilder :=
  let st := if optTruthy b.config.big_picture_path then NotificationStyle.both_imgs
            else NotificationStyle.large_icon
  { b with config := { b.config with style := st, large_icon_path := some path } }

/-- Mirror of NotificationBuilder.set_big_picture: upgrades to BOTH_IMAGES when
the large-icon path is already truthy. -/
def NotificationBuilder.set_big_picture (b : NotificationBuilder) (path : String) :
    NotificationBuilder :=
  let st := if optTruthy b.config.large_icon_path then NotificationStyle.both_imgs
            else NotificationStyle.big_picture
  { b with config := { b.config with style := st, big_picture_path := some path } }

/-- Mirror of NotificationBuilder.set_big_text. -/
def NotificationBuilder.set_big_text (b : NotificationBuilder) (body : String) :
    NotificationBuilder :=
  { b with config := { b.config with style := .big_text, big_text_body := some body } }

/-- Mirror of NotificationBuilder.add_line. -/
def NotificationBuilder.add_line (b : NotificationBuilder) (text : String) :
    NotificationBuilder :=
  { b with config := { b.config with style := .inbox,
                                     inbox_lines := b.config.inbox_lines ++ [text] } }

/-- Mirror of NotificationBuilder.set_lines. -/
def NotificationBuilder.set_lines (b : NotificationBuilder) (lines : List String) :
    NotificationBuilder :=
  { b with config := { b.config with style := .inbox, inbox_lines := lines } }

/-- Mirror of NotificationBuilder.send: constructs the FletNotification (which
may raise PlatformNotSupportedException) and sends it. -/
def NotificationBuilder.send (env : BackendEnv) (b : NotificationBuilder)
    (silent persistent close_on_click : Bool) :
    Except NotifyErr FletNotification × List BackendCall :=
  match FletNotification.make b.page b.config with
  | .error e => (.error e, [])
  | .ok n =>
      match n.send env silent persistent close_on_click with
      | (.ok _, n', tr) => (.ok n', tr)
      | (.error e, _, tr) => (.error e, tr)

/-- Mirror of FletNotify.create: a fresh builder over a fresh config. -/
def FletNotify.create (page : Page) (title message channel_id channel_name : String)
    (importance : NotificationImportance) (notification_id : Option String) :
    NotificationBuilder :=
  { page := page,
    config := { NotificationConfig.mkDefault title message with
      channel_id := channel_id, channel_name := channel_name,
      importance := importance, notification_id := notification_id } }

/-- FletNotify.create with its Python default arguments. -/
def FletNotify.createDefault (page : Page) (title message : String) :
    NotificationBuilder :=
  FletNotify.create page title message "default" "Padrão" .urgent none

/-- One style-affecting builder call, with its arguments. -/
inductive StyleCall where
  | withProgress (current max_value : Int)
  | setBigText (body : String)
  | addLine (text : String)
  | setLines (lines : List String)
  | setLargeIcon (path : String)
  | setBigPicture (path : String)
deriving DecidableEq, Repr

/-- Apply one style-affecting call to the builder (all of these succeed). -/
def NotificationBuilder.applyCall (b : NotificationBuilder) : StyleCall → NotificationBuilder
  | .withProgress c m => b.with_progress c m
  | .setBigText body => b.set_big_text body
  | .addLine t => b.add_line t
  | .setLines ls => b.set_lines ls
  | .setLargeIcon p => b.set_large_icon p
  | .setBigPicture p => b.set_big_picture p

/-- Apply a sequence of style-affecting calls in order. -/
def NotificationBuilder.applyCalls (b : NotificationBuilder) (cs : List StyleCall) :
    NotificationBuilder :=
  cs.foldl NotificationBuilder.applyCall b

/-- State of the spec-side style derivation: the active style plus whether the
large-icon and big-picture paths are set (an empty path counts as unset, the
spec treats empty and unset fields alike). -/
structure DeriveState where
  style : NotificationStyle
  largeIconSet : Bool
  bigPictureSet : Bool
deriving DecidableEq, Repr

/-- Modelled from the spec (section 4.2 derivation rule, stated over the claims
of C3): setting progress fields yields progress; inbox lines yield inbox;
big-text body yields big_text; a large-icon path yields both_imgs when the
big-picture path is already set, else large_icon; symmetrically for a
big-picture path.  Later calls always win. -/
def deriveStyle (st : DeriveState) : StyleCall → DeriveState
  | .withProgress _ _ => { st with style := .progress }
  | .setBigText _ => { st with style := .big_text }
  | .addLine _ => { st with style := .inbox }
  | .setLines _ => { st with style := .inbox }
  | .setLargeIcon p =>
      { style := if st.bigPictureSet then .both_imgs else .large_icon,
        largeIconSet := p != "", bigPictureSet := st.bigPictureSet }
  | .setBigPicture p =>
      { style := if st.largeIconSet then .both_imgs else .big_picture,
        largeIconSet := st.largeIconSet, bigPictureSet := p != "" }

/-- Fold of the spec-side derivation rule over a call sequence. -/
def deriveFold (st : DeriveState) (cs : List StyleCall) : DeriveState :=
  cs.foldl deriveStyle st

/-- The derive state of a fresh config: style simple, no image paths. -/
def initialDeriveState : DeriveState :=
  { style := .simple, largeIconSet := false, bigPictureSet := false }

/-- The derive-state abstraction of a builder: its active style and the Python
truthiness of its two image-path fields. -/
def NotificationBuilder.styleState (b : NotificationBuilder) : DeriveState :=
  { style := b.config.style,
    largeIconSet := optTruthy b.config.large_icon_path,
    bigPictureSet := optTruthy b.config.big_picture_path }

/-- Concrete fixtures used by the closed theorems below. -/
def androidPage : Page := { platform := .android }

/-- A backend environment where every backend operation succeeds. -/
def goodEnv : BackendEnv := { available := true, createFails := none, sendFails := none }

/-- A backend environment where Notification(**kwargs) succeeds but the
backend-side send raises. -/
def failSendEnv : BackendEnv :=
  { available := true, createFails := none, sendFails := some "boom" }

/-- A fresh FletNotification over the default "T"/"M" config, as produced by
FletNotification.make on an Android page. -/
def initTM : FletNotification :=
  { platform := .android, config := NotificationConfig.mkDefault "T" "M",
    _notification := none, _sent := false }

/-- The state of initTM after a successful send. -/
def sentTM : FletNotification :=
  { platform := .android, config := NotificationConfig.mkDefault "T" "M",
    _notification := some (), _sent := true }

/-- A sent progress-style instance, as produced by
create("T","M").with_progress(0,100).send(). -/
def sentProgressTM : FletNotification :=
  { platform := .android,
    config := { NotificationConfig.mkDefault "T" "M" with style := .progress },
    _notification := some (), _sent := true }

theorem unsentGuard_eq_true (s : FletNotification)
    (h : s._sent = false ∨ s._notification = none) : s.unsentGuard = true := by
  cases h with
  | inl h => simp [FletNotification.unsentGuard, h]
  | inr h => simp [FletNotification.unsentGuard, h]

theorem unsentGuard_eq_false (s : FletNotification)
    (hs : s._sent = true) (hn : s._notification ≠ none) : s.unsentGuard = false := by
  cases hv : s._notification with
  | none => exact absurd hv hn
  | some u => simp [FletNotification.unsentGuard, hs, hv]

/-- Sequential add_button calls (used to state the C6 scenario). -/
def NotificationBuilder.addButtons (b : NotificationBuilder)
    (l : List (String × Nat)) : Except NotifyErr NotificationBuilder :=
  l.foldlM (fun acc p => acc.add_button p.1 p.2) b

/-- Claim C6: on a builder with no buttons, three add_button calls succeed and
leave exactly those three buttons in insertion order; the 4th call fails with
the TooManyButtons exception.  Because add_button raises before appending, the
failing call returns no modified builder: the three buttons are untouched. -/
theorem C6_button_limit (b : NotificationBuilder) (h : b.config.buttons = [])
    (t1 t2 t3 t4 : String) (c1 c2 c3 c4 : Nat) :
    b.addButtons [(t1, c1), (t2, c2), (t3, c3)] =
      .ok { b with config := { b.config with
              buttons := [⟨t1, c1⟩, ⟨t2, c2⟩, ⟨t3, c3⟩] } } ∧
    ({ b with config := { b.config with
        buttons := [⟨t1, c1⟩, ⟨t2, c2⟩, ⟨t3, c3⟩] } } : NotificationBuilder).add_button
        t4 c4 = .error tooManyButtonsErr := by
  constructor
  · simp [NotificationBuilder.addButtons, NotificationBuilder.add_button, h, List.foldlM,
      bind, Except.bind, pure, Except.pure]
  · simp [NotificationBuilder.add_button]

/-- Witness for C6 at a concrete builder. -/
theorem C6_button_limit_witness :
    ({ FletNotify.createDefault androidPage "T" "M" with
        config := { (FletNotify.createDefault androidPage "T" "M").config with
          buttons := [⟨"a", 1⟩, ⟨"b", 2⟩, ⟨"c", 3⟩] } } : NotificationBuilder).add_button
        "d" 4 = .error tooManyButtonsErr :=
  (C6_button_limit (FletNotify.createDefault androidPage "T" "M") rfl
    "a" "b" "c" "d" 1 2 3 4).2

/-- Claim C7: update_progress on a sent instance whose active style is not
progress fails with the WrongStyle exception, returns the state unchanged (so
progress_current and progress_max are untouched) and issues no backend call. -/
theorem C7_wrong_style (s : FletNotification) (cur : Int) (ti me : Option String)
    (hs : s._sent = true) (hn : s._notification ≠ none)
    (hstyle : s.config.style ≠ .progress) :
    s.update_progress cur ti me = (.error wrongStyleErr, s, []) := by
  have hg := unsentGuard_eq_false s hs hn
  simp [FletNotification.update_progress, hg, bne_iff_ne, hstyle]

/-- Witness for C7 at a concrete sent simple-style instance. -/
theorem C7_wrong_style_witness :
    sentTM.update_progress 50 none none = (.error wrongStyleErr, sentTM, []) :=
  C7_wrong_style sentTM 50 none none rfl (by decide) (by decide)

/-- Claim C10: on a sent progress-style instance, passing the empty string as
the optional title and message of update_progress leaves the stored title and
message unchanged and forwards no title/message field to the backend (the
single updateProgressBar call carries only the current value). -/
theorem C10_empty_optionals (s : FletNotification) (cur : Int)
    (hs : s._sent = true) (hn : s._notification ≠ none)
    (hp : s.config.style = .progress) :
    s.update_progress cur (some "") (some "") =
      (.ok (), { s with config := { s.config with progress_current := cur } },
        [BackendCall.updateProgressBar cur none none]) := by
  have hg := unsentGuard_eq_false s hs hn
  simp [FletNotification.update_progress, hg, hp, optTruthy]

/-- Witness for C10 at a concrete sent progress instance. -/
theorem C10_empty_optionals_witness :
    sentProgressTM.update_progress 7 (some "") (some "") =
      (.ok (),
       { sentProgressTM with config :=
          { sentProgressTM.config with progress_current := 7 } },
       [BackendCall.updateProgressBar 7 none none]) :=
  C10_empty_optionals sentProgressTM 7 rfl (by decide) rfl

theorem styleState_applyCall (b : NotificationBuilder) (c : StyleCall) :
    (b.applyCall c).styleState = deriveStyle b.styleState c := by
  cases c <;>
    simp [NotificationBuilder.applyCall, NotificationBuilder.styleState, deriveStyle,
      NotificationBuilder.with_progress, NotificationBuilder.set_big_text,
      NotificationBuilder.add_line, NotificationBuilder.set_lines,
      NotificationBuilder.set_large_icon, NotificationBuilder.set_big_picture, optTruthy]

theorem styleState_applyCalls (cs : List StyleCall) (b : NotificationBuilder) :
    (b.applyCalls cs).styleState = deriveFold b.styleState cs := by
  induction cs generalizing b with
  | nil => rfl
  | cons c cs ih =>
      show ((b.applyCall c).applyCalls cs).styleState = deriveFold (deriveStyle b.styleState c) cs
      rw [← styleState_applyCall]
      exact ih (b.applyCall c)

/-- Claim C3: for every sequence of style-affecting builder calls applied to a
fresh builder, the final active style equals the result of folding the spec's
section 4.2 derivation rule over the calls in order (later calls win). -/
theorem C3_style_follows_derivation (page : Page) (t m cid cname : String)
    (imp : NotificationImportance) (nid : Option String) (cs : List StyleCall) :
    ((FletNotify.create page t m cid cname imp nid).applyCalls cs).config.style =
      (deriveFold initialDeriveState cs).style := by
  have h := styleState_applyCalls cs (FletNotify.create page t m cid cname imp nid)
  have hinit : (FletNotify.create page t m cid cname imp nid).styleState
      = initialDeriveState := rfl
  rw [hinit] at h
  calc ((FletNotify.create page t m cid cname imp nid).applyCalls cs).config.style
      = ((FletNotify.create page t m cid cname imp nid).applyCalls cs).styleState.style := rfl
    _ = (deriveFold initialDeriveState cs).style := by rw [h]

/-- The builder of C4: large icon p1 then big picture p2 on a fresh builder. -/
def twoImageBuilder (t m p1 p2 : String) : NotificationBuilder :=
  ((FletNotify.createDefault androidPage t m).set_large_icon p1).set_big_picture p2

/-- The two C4 calls in the reverse order. -/
def twoImageBuilderRev (t m p1 p2 : String) : NotificationBuilder :=
  ((FletNotify.createDefault androidPage t m).set_big_picture p2).set_large_icon p1

/-- Claim C4 counterexample: with the empty string as the first path,
set_large_icon("") then set_big_picture("pic") yields style big_picture, not
both_images — the empty path is falsy, so the upgrade branch is not taken. -/
theorem C4_counterexample :
    (twoImageBuilder "T" "M" "" "pic").config.style ≠ NotificationStyle.both_imgs ∧
    (twoImageBuilder "T" "M" "" "pic").config.style = NotificationStyle.big_picture := by
  constructor <;> decide

/-- Claim C4 (amended): for non-empty paths p1, p2, set_large_icon(p1) followed
by set_big_picture(p2) yields active style both_images with both paths
retained; the reverse call order yields the identical builder; and on send()
both paths are forwarded to the backend inside the createNotification kwargs. -/
theorem C4_both_images (t m p1 p2 : String) (h1 : p1 ≠ "") (h2 : p2 ≠ "") :
    (twoImageBuilder t m p1 p2).config.style = NotificationStyle.both_imgs ∧
    (twoImageBuilder t m p1 p2).config.large_icon_path = some p1 ∧
    (twoImageBuilder t m p1 p2).config.big_picture_path = some p2 ∧
    twoImageBuilderRev t m p1 p2 = twoImageBuilder t m p1 p2 ∧
    ((twoImageBuilder t m p1 p2).send goodEnv false false true).2 =
      [BackendCall.createNotification (sendKwargs (twoImageBuilder t m p1 p2).config),
       BackendCall.sendNotif false false true] ∧
    (sendKwargs (twoImageBuilder t m p1 p2).config).large_icon_path = some (some p1) ∧
    (sendKwargs (twoImageBuilder t m p1 p2).config).big_picture_path = some (some p2) := by
  refine ⟨?_, ?_, ?_, ?_, ?_, ?_, ?_⟩ <;>
    simp [twoImageBuilder, twoImageBuilderRev, FletNotify.createDefault, FletNotify.create,
      NotificationConfig.mkDefault, NotificationBuilder.set_large_icon,
      NotificationBuilder.set_big_picture, optTruthy, h1, h2,
      NotificationBuilder.send, FletNotification.make, androidPage,
      FletNotification.send, goodEnv, sendKwargs]

/-- Witness for C4 at concrete non-empty paths. -/
theorem C4_both_images_witness :
    (twoImageBuilder "T" "M" "icon.png" "pic.png").config.style
      = NotificationStyle.both_imgs ∧
    twoImageBuilderRev "T" "M" "icon.png" "pic.png"
      = twoImageBuilder "T" "M" "icon.png" "pic.png" :=
  ⟨(C4_both_images "T" "M" "icon.png" "pic.png" (by decide) (by decide)).1,
   (C4_both_images "T" "M" "icon.png" "pic.png" (by decide) (by decide)).2.2.2.1⟩

/-- Claim C1 counterexample: a config with empty title is sent successfully —
no IncompleteConfig-style failure exists, and the backend IS reached: the
trace shows createNotification invoked with the empty title. -/
theorem C1_counterexample :
    ((FletNotify.createDefault androidPage "" "M").send goodEnv false false true) =
      (.ok { platform := .android, config := NotificationConfig.mkDefault "" "M",
             _notification := some (), _sent := true },
       [BackendCall.createNotification (sendKwargs (NotificationConfig.mkDefault "" "M")),
        BackendCall.sendNotif false false true]) ∧
    (sendKwargs (NotificationConfig.mkDefault "" "M")).title = "" := by
  constructor <;> rfl

/-- Claim C1 (amended): send() performs no validation of title, message or
style payload.  For every instance state, with an available and succeeding
backend, send() succeeds and the first backend call is createNotification
carrying the kwargs built verbatim from the config (the title is forwarded
even when empty); no IncompleteConfig failure exists and the backend is always
reached. -/
theorem C1_send_never_validates (s : FletNotification) (silent persistent coc : Bool) :
    (s.send goodEnv silent persistent coc).1 = .ok () ∧
    (s.send goodEnv silent persistent coc).2.2.head? =
      some (BackendCall.createNotification (sendKwargs s.config)) := by
  constructor <;> simp [FletNotification.send, goodEnv]

/-- Claim C2 counterexample: after a real make + send, cancel() succeeds and a
second cancel() succeeds again (forwarding another backend cancel) — nothing
fails with an AlreadyCancelled error, because cancel performs no state
transition. -/
theorem C2_counterexample :
    FletNotification.make androidPage (NotificationConfig.mkDefault "T" "M") =
      .ok initTM ∧
    (initTM.send goodEnv false false true).2.1 = sentTM ∧
    sentTM.cancel = (.ok (), sentTM, [BackendCall.cancelNotif]) ∧
    (sentTM.cancel).2.1.cancel = (.ok (), sentTM, [BackendCall.cancelNotif]) := by
  refine ⟨rfl, rfl, rfl, rfl⟩

/-- Claim C2 (amended): every update operation (update_title, update_message,
update_progress, show_infinite_progress, remove_progress, cancel, refresh)
invoked in the Unsent state fails with the single not-sent-yet exception; but
cancel() never changes the instance state, so operations after cancel() —
including a second cancel() — behave exactly as before it: there is no
Cancelled state and no AlreadyCancelled failure. -/
theorem C2_state_guards (s : FletNotification) (t m : String) (cur : Int)
    (ti me msg : Option String) (sb : Bool) :
    ((s._sent = false ∨ s._notification = none) →
      (s.update_title t).1 = .error notSentErr ∧
      (s.update_message m).1 = .error notSentErr ∧
      (s.update_progress cur ti me).1 = .error notSentErr ∧
      (s.show_infinite_progress).1 = .error notSentErr ∧
      (s.remove_progress msg sb).1 = .error notSentErr ∧
      (s.cancel).1 = .error notSentErr ∧
      (s.refresh).1 = .error notSentErr) ∧
    (s.cancel).2.1 = s ∧
    (s._sent = true → s._notification ≠ none →
      (s.cancel).1 = .ok () ∧ ((s.cancel).2.1.cancel).1 = .ok ()) := by
  refine ⟨?_, ?_, ?_⟩
  · intro h
    have hg := unsentGuard_eq_true s h
    refine ⟨?_, ?_, ?_, ?_, ?_, ?_, ?_⟩ <;>
      simp [FletNotification.update_title, FletNotification.update_message,
        FletNotification.update_progress, FletNotification.show_infinite_progress,
        FletNotification.remove_progress, FletNotification.cancel,
        FletNotification.refresh, hg]
  · unfold FletNotification.cancel
    split <;> rfl
  · intro hs hn
    have hg := unsentGuard_eq_false s hs hn
    constructor <;> simp [FletNotification.cancel, hg]

/-- Witness for C2 at concrete unsent and cancelled-once instances. -/
theorem C2_state_guards_witness :
    (initTM.update_title "x").1 = .error notSentErr ∧
    ((sentTM.cancel).2.1.cancel).1 = .ok () :=
  ⟨((C2_state_guards initTM "x" "y" 0 none none none true).1 (Or.inl rfl)).1,
   ((C2_state_guards sentTM "x" "y" 0 none none none true).2.2 rfl (by decide)).2⟩

/-- Claim C5 counterexample: when the backend-side handle.send raises after
Notification(**kwargs) succeeded, the dispatch fails but the handle has
already been assigned: the resulting state has the handle present while sent
is still false, so "handle present iff sent" is violated. -/
theorem C5_counterexample :
    initTM.send failSendEnv false false true =
      (.error (.fletNotify "Falha ao enviar notificação: boom"),
       { initTM with _notification := some () },
       [BackendCall.createNotification (sendKwargs initTM.config),
        BackendCall.sendNotif false false true]) ∧
    ({ initTM with _notification := some () } : FletNotification)._sent = false ∧
    ({ initTM with _notification := some () } : FletNotification)._notification ≠ none := by
  refine ⟨rfl, rfl, by decide⟩

/-- Claim C5 (amended): the sent flag starts false, becomes true only through a
successful dispatch, is never reset by any operation, and sent implies the
handle is present.  The converse implication does not hold (see the
counterexample): a dispatch that fails after backend creation leaves the
handle present with sent still false. -/
theorem C5_sent_flag_invariants (page : Page) (cfg : NotificationConfig)
    (n s : FletNotification) (env : BackendEnv) (a b c : Bool)
    (t m : String) (cur : Int) (ti me msg : Option String) (sb : Bool) :
    (FletNotification.make page cfg = .ok n →
      n._sent = false ∧ n._notification = none) ∧
    ((s.send env a b c).2.1._sent = true →
      s._sent = true ∨ (s.send env a b c).1 = .ok ()) ∧
    (s._sent = true → (s.send env a b c).2.1._sent = true) ∧
    ((s._sent = true → s._notification ≠ none) →
      ((s.send env a b c).2.1._sent = true →
        (s.send env a b c).2.1._notification ≠ none)) ∧
    ((s.update_title t).2.1._sent = s._sent ∧
      (s.update_title t).2.1._notification = s._notification) ∧
    ((s.update_message m).2.1._sent = s._sent ∧
      (s.update_message m).2.1._notification = s._notification) ∧
    ((s.update_progress cur ti me).2.1._sent = s._sent ∧
      (s.update_progress cur ti me).2.1._notification = s._notification) ∧
    ((s.show_infinite_progress).2.1._sent = s._sent ∧
      (s.show_infinite_progress).2.1._notification = s._notification) ∧
    ((s.remove_progress msg sb).2.1._sent = s._sent ∧
      (s.remove_progress msg sb).2.1._notification = s._notification) ∧
    ((s.cancel).2.1._sent = s._sent ∧
      (s.cancel).2.1._notification = s._notification) ∧
    ((s.refresh).2.1._sent = s._sent ∧
      (s.refresh).2.1._notification = s._notification) := by
  obtain ⟨av, cf, sf⟩ := env
  refine ⟨?_, ?_, ?_, ?_, ?_, ?_, ?_, ?_, ?_, ?_, ?_⟩
  · intro h
    unfold FletNotification.make at h
    split at h
    · cases h; exact ⟨rfl, rfl⟩
    · cases h
  · cases av <;> cases cf <;> cases sf <;>
      simp [FletNotification.send]
  · intro hs
    cases av <;> cases cf <;> cases sf <;>
      simp [FletNotification.send, hs]
  · intro hinv hsent
    cases av <;> cases cf <;> cases sf <;>
      simp_all [FletNotification.send]
  all_goals
    by_cases hg : s.unsentGuard = true <;>
      constructor <;>
        simp [FletNotification.update_title, FletNotification.update_message,
          FletNotification.update_progress, FletNotification.show_infinite_progress,
          FletNotification.remove_progress, FletNotification.cancel,
          FletNotification.refresh, hg] <;>
        split <;> simp

/-- Witness for C5 at a concrete make result. -/
theorem C5_sent_flag_invariants_witness :
    initTM._sent = false ∧ initTM._notification = none :=
  (C5_sent_flag_invariants androidPage (NotificationConfig.mkDefault "T" "M")
    initTM sentTM goodEnv false false true "x" "y" 0 none none none true).1 rfl

/-- The C8 instance state after update_progress(50, message="50%"). -/
def sentProgressUpdatedTM : FletNotification :=
  { platform := .android,
    config := { NotificationConfig.mkDefault "T" "M" with
      style := .progress, progress_current := 50, message := "50%" },
    _notification := some (), _sent := true }

/-- Claim C8: create("T","M").with_progress(0,100).send() followed by
update_progress(50, message="50%") yields a config with progress_current 50
and message "50%", issuing exactly one backend updateProgressBar call with
current_value 50; moreover update_progress always forwards and stores the
given current value as-is, never clamping it to progress_max. -/
theorem C8_progress_round_trip (s : FletNotification) (cur : Int)
    (ti me : Option String) (hs : s._sent = true) (hn : s._notification ≠ none)
    (hp : s.config.style = .progress) :
    ((FletNotify.createDefault androidPage "T" "M").with_progress 0 100).send
        goodEnv false false true =
      (.ok sentProgressTM,
       [BackendCall.createNotification (sendKwargs sentProgressTM.config),
        BackendCall.sendNotif false false true]) ∧
    sentProgressTM.update_progress 50 none (some "50%") =
      (.ok (), sentProgressUpdatedTM,
       [BackendCall.updateProgressBar 50 none (some "50%")]) ∧
    sentProgressUpdatedTM.config.progress_current = 50 ∧
    sentProgressUpdatedTM.config.message = "50%" ∧
    (s.update_progress cur ti me).2.1.config.progress_current = cur ∧
    (s.update_progress cur ti me).2.2 =
      [BackendCall.updateProgressBar cur
        (if optTruthy ti then ti else none)
        (if optTruthy me then me else none)] := by
  have hg := unsentGuard_eq_false s hs hn
  refine ⟨rfl, rfl, rfl, rfl, ?_, ?_⟩ <;>
    simp [FletNotification.update_progress, hg, hp]

/-- Witness for C8: the current value 150 is stored as given even though the
declared max is 100. -/
theorem C8_progress_round_trip_witness :
    (sentProgressTM.update_progress 150 none none).2.1.config.progress_current = 150 :=
  (C8_progress_round_trip sentProgressTM 150 none none rfl (by decide) rfl).2.2.2.2.1

/-- Claim C9 counterexample: with_progress(-1, 0) is accepted by the public
builder and yields a progress-style config violating the claimed invariant
(current is negative and max is not positive). -/
theorem C9_counterexample :
    ((FletNotify.createDefault androidPage "T" "M").with_progress (-1) 0).config.style =
      NotificationStyle.progress ∧
    ¬(0 ≤ ((FletNotify.createDefault androidPage "T" "M").with_progress (-1) 0).config.progress_current ∧
      0 < ((FletNotify.createDefault androidPage "T" "M").with_progress (-1) 0).config.progress_max ∧
      ((FletNotify.createDefault androidPage "T" "M").with_progress (-1) 0).config.progress_current ≤
        ((FletNotify.createDefault androidPage "T" "M").with_progress (-1) 0).config.progress_max) := by
  constructor
  · rfl
  · decide

/-- Claim C9 (amended): the code enforces no invariant on the progress payload:
with_progress stores the given current and max verbatim (any integers), and
update_progress stores the given current verbatim, leaving max unchanged. -/
theorem C9_progress_unvalidated (b : NotificationBuilder) (c m : Int)
    (s : FletNotification) (cur : Int) (hs : s._sent = true)
    (hn : s._notification ≠ none) (hp : s.config.style = .progress) :
    ((b.with_progress c m).config.progress_current = c ∧
     (b.with_progress c m).config.progress_max = m ∧
     (b.with_progress c m).config.style = NotificationStyle.progress) ∧
    ((s.update_progress cur none none).2.1.config.progress_current = cur ∧
     (s.update_progress cur none none).2.1.config.progress_max = s.config.progress_max) := by
  have hg := unsentGuard_eq_false s hs hn
  refine ⟨⟨rfl, rfl, rfl⟩, ?_⟩
  constructor <;> simp [FletNotification.update_progress, hg, hp]

/-- Witness for C9 at concrete out-of-range values. -/
theorem C9_progress_unvalidated_witness :
    ((FletNotify.createDefault androidPage "T" "M").with_progress (-5) 0).config.progress_current = -5 ∧
    (sentProgressTM.update_progress 999 none none).2.1.config.progress_current = 999 :=
  ⟨(C9_progress_unvalidated (FletNotify.createDefault androidPage "T" "M") (-5) 0
      sentProgressTM 999 rfl (by decide) rfl).1.1,
   (C9_progress_unvalidated (FletNotify.createDefault androidPage "T" "M") (-5) 0
      sentProgressTM 999 rfl (by decide) rfl).2.1⟩
